import Mathlib

/-!
Verification of the tsh runtime schema-validation library.

The development shallowly embeds the shape/validation pipeline of the
repository: JavaScript runtime values become the inductive `JsVal`,
thrown errors become the inductive `JsError`, and each revision of the
shape classes found in the source tree is translated into explicit
record types with pure parsing functions.  Exceptions are modelled with
`Except JsError`; mutation of a receiver object by a method is modelled
by returning the receiver state after the call next to the method
result.

The repository contains several historical revisions of the same
modules.  Each embedded namespace names the revision it translates:

* `TshA`   — `src/libs/shapes/abstract-shape.ts` (the `_preValidate`
  pipeline with `sync`/`async`/`coerceFn` validators).
* `TshN`   — `src/libs/shapes/number-shape.ts` together with the
  `_operate` execution loop of the first `AbstractShape` revision in
  `unnamed/part_009`, which is the base class this `NumberShape`
  actually calls into.
* `TshO`   — `src/libs/shapes/object-shape.ts`.
* `TshArr` — the `ArrayShape` revision in `unnamed/part_010`.
* `TshP9`  — the second `AbstractShape` revision in `unnamed/part_009`
  (the `_pipelineSync` pipeline with `primitiveFn` validators).
* `TshU`   — `src/libs/shapes/union-shape.ts`.
-/

/-- JavaScript runtime values, as far as the validation pipeline
inspects them.  Numbers are modelled by integers plus an explicit `nan`
value (the only non-finite number the embedded code paths can produce,
via `Number(string)` on a non-numeric string).  Objects are association
lists in key-insertion order, as JavaScript enumerates them. -/
inductive JsVal where
  | undefined
  | null
  | bool (b : Bool)
  | num (n : Int)
  | nan
  | str (s : String)
  | arr (elems : List JsVal)
  | obj (fields : List (String × JsVal))

/-- Thrown error values.  `shapeErr` models `TshShapeError`; the `extra`
bag of a `TshShapeError` is modelled by the two keys the code actually
stores there: `originalError` (set by `_createUnexpectedError`) and
`errors` (set by the union aggregate, a list of code/message/path
triples).  `aggregate` models the native `AggregateError`, `generic` a
plain `Error`, and `nonError` a thrown value that is not an `Error`. -/
inductive JsError where
  | shapeErr (code message : String) (value : JsVal) (key : String)
      (path : List String) (details : List JsError)
      (extraOriginal : Option JsError)
      (extraErrors : List (String × String × String))
  | aggregate (message : String) (errors : List JsError)
  | generic (message : String)
  | nonError (v : JsVal)

/-- `TshShapeError` with only the mandatory fields, as produced by the
constructors in the code that leave `path`, `details` and `extra` at
their defaults. -/
def mkShapeErr (code message : String) (value : JsVal) (key : String) : JsError :=
  .shapeErr code message value key [] [] none []

/-- Whether a thrown value satisfies `instanceof TshShapeError`. -/
def JsError.isShapeErr : JsError → Bool
  | .shapeErr .. => true
  | _ => false

/-- The `code` property of a thrown value (`TshShapeError` only). -/
def JsError.codeOf : JsError → Option String
  | .shapeErr c _ _ _ _ _ _ _ => some c
  | _ => none

/-- The `message` property read off a thrown value; reading it from a
non-`Error` value models `_createUnexpectedError`, which substitutes a
fixed message when `error instanceof Error` fails. -/
def JsError.messageOf : JsError → String
  | .shapeErr _ m _ _ _ _ _ _ => m
  | .aggregate m _ => m
  | .generic m => m
  | .nonError _ => "An unexpected error occurred"

/-- The `_key` of the shape attached to a `TshShapeError` (used by the
union aggregate as the `path` of a detail entry). -/
def JsError.keyOf : JsError → String
  | .shapeErr _ _ _ k _ _ _ _ => k
  | _ => ""

/-- Key membership test on a JavaScript object (`key in obj`). -/
def objHas (fields : List (String × JsVal)) (k : String) : Bool :=
  fields.any (fun p => p.1 == k)

/-- Property read on a JavaScript object; absent keys read `undefined`. -/
def objGet (fields : List (String × JsVal)) (k : String) : JsVal :=
  match fields.find? (fun p => p.1 == k) with
  | some p => p.2
  | none => .undefined

/-- Object spread `\x7b...a, ...b\x7d`: keys of `a` keep their position
but take the value from `b` when `b` also has the key; keys only in `b`
are appended in order.  A key whose value is `undefined` still counts as
present, as in JavaScript. -/
def jsSpread (a b : List (String × JsVal)) : List (String × JsVal) :=
  a.map (fun p => (p.1, match b.find? (fun q => q.1 == p.1) with
    | some q => q.2
    | none => p.2))
  ++ b.filter (fun q => !(objHas a q.1))

/-- Operation-chain entries (`TshOperation`).  The synchronous pipeline
can only run `transform` and `refine`; the async variants carry no
runnable function here because the claims under verification concern
the synchronous entry points, where those functions are never invoked.
User-supplied functions may throw, modelled by `Except JsError`.
The effective `code`/`message` of an entry already account for the
`opts.code ?? code` / `opts.message ?? message` resolution performed at
creation time and repeated identically when an error is built. -/
inductive TOp where
  | transform (code message : String) (fn : JsVal → Except JsError JsVal)
  | refine (code message : String) (fn : JsVal → Except JsError Bool)
  | transformAsync (code message : String)
  | refineAsync (code message : String)

namespace TshA

/-- Result record returned by a `sync` shape validator:
`\x7b success: boolean; error?: TshShapeError \x7d`. -/
structure VRes where
  success : Bool
  error : Option JsError

/-- The `AbstractShape` revision of `src/libs/shapes/abstract-shape.ts`.
`typeName` is `_type` (used by `defKey`), `key` is `_key`, `validator`
is `_shapeValidator`, and `ops` is the operation chain walked from
`_operations.first`.  The chain is modelled as the list of entries the
walk visits. -/
structure AShape where
  typeName : String := "abstract"
  key : String := "abstract"
  validator : Option (JsVal → Except JsError VRes) := none
  coerceFn : Option (JsVal → Except JsError JsVal) := none
  dflt : Option JsVal := none
  optionalFlag : Bool := false
  nullableFlag : Bool := false
  ops : List TOp := []

/-- `_createUnexpectedError`: wrap an arbitrary thrown value in a
`TshShapeError` with code `UNEXPECTED_ERROR`, keeping the original
under `extra.originalError`. -/
def AShape.createUnexpected (s : AShape) (e : JsError) (v : JsVal) : JsError :=
  .shapeErr "UNEXPECTED_ERROR" e.messageOf v s.key [] [] (some e) []

/-- `_createMissingError`: the `REQUIRED` presence error.  Its message
interpolates `defKey()`, which returns `_type`. -/
def AShape.missingError (s : AShape) (v : JsVal) : JsError :=
  mkShapeErr "REQUIRED" ("Missing required value for " ++ s.typeName) v s.key

/-- `_coerceValue`: apply `_coerceFn` if present; a throwing coercion is
caught and wrapped as an unexpected error. -/
def AShape.coerceValue (s : AShape) (v : JsVal) : Except JsError JsVal :=
  match s.coerceFn with
  | none => .ok v
  | some f =>
    match f v with
    | .ok v2 => .ok v2
    | .error e => .error (s.createUnexpected e v)

/-- `_validateSync`: run the shape validator if present.  A validator
that itself throws is not caught here (the exception propagates to the
caller); a failed result without an `error` field counts as a pass
(`result.error ?? null`). -/
def AShape.validateSync (s : AShape) (v : JsVal) : Except JsError (Option JsError) :=
  match s.validator with
  | none => .ok none
  | some f =>
    match f v with
    | .error e => .error e
    | .ok r => .ok (if r.success then none else r.error)

/-- `_executeOperation`: one step of the synchronous chain.  `transform`
maps the value, a failed `refine` produces the entry's error, and any
throw from the user function is caught and wrapped as unexpected.  The
`default` branch of the `switch` returns an empty record, silently
skipping `transformAsync`/`refineAsync` entries. -/
def AShape.executeOperation (s : AShape) (op : TOp) (v : JsVal) :
    Except JsError (Option JsVal) :=
  match op with
  | .transform _ _ fn =>
    match fn v with
    | .ok v2 => .ok (some v2)
    | .error e => .error (s.createUnexpected e v)
  | .refine code msg fn =>
    match fn v with
    | .ok true => .ok none
    | .ok false => .error (mkShapeErr code msg v s.key)
    | .error e => .error (s.createUnexpected e v)
  | .transformAsync _ _ => .ok none
  | .refineAsync _ _ => .ok none

/-- `_executeOperations`: walk the chain, threading the current value;
a step that yields no value keeps the previous one. -/
def AShape.runOps (s : AShape) : List TOp → JsVal → Except JsError JsVal
  | [], v => .ok v
  | op :: rest, v =>
    match s.executeOperation op v with
    | .error e => .error e
    | .ok none => s.runOps rest v
    | .ok (some v2) => s.runOps rest v2

/-- Tail of `_preValidate` after the presence short-circuits: the shape
validator followed by the operation chain. -/
def AShape.validateThenOps (s : AShape) (v : JsVal) : Except JsError JsVal :=
  match s.validateSync v with
  | .error e => .error e
  | .ok (some basicError) => .error basicError
  | .ok none => s.runOps s.ops v

/-- `_preValidate`: coercion, then the `undefined` branch (optional
shapes short-circuit with `_default ?? undefined`, others throw the
missing error), then the `null`-and-nullable short-circuit, then the
shape validator, then the operation chain. -/
def AShape.preValidate (s : AShape) (v : JsVal) : Except JsError JsVal :=
  match s.coerceValue v with
  | .error e => .error e
  | .ok v1 =>
    match v1 with
    | .undefined =>
      if s.optionalFlag then .ok (s.dflt.getD .undefined)
      else .error (s.missingError .undefined)
    | .null =>
      if s.nullableFlag then .ok .null
      else s.validateThenOps .null
    | _ => s.validateThenOps v1

/-- Result of `safeParse`. -/
inductive SRes where
  | success (value : JsVal)
  | failure (error : JsError)

/-- `_handleError`: a caught `TshShapeError` is returned as-is; any
other thrown value is wrapped by `_createUnexpectedError`. -/
def AShape.handleError (s : AShape) (e : JsError) (v : JsVal) : SRes :=
  match e with
  | .shapeErr .. => .failure e
  | _ => .failure (s.createUnexpected e v)

/-- `safeParse`: run `_preValidate` and convert a thrown error through
`_handleError`; the function itself never throws. -/
def AShape.safeParse (s : AShape) (v : JsVal) : SRes :=
  match s.preValidate v with
  | .ok d => .success d
  | .error e => s.handleError e v

/-- `optional()`: clone, set the flag on the clone.  The pair is
(receiver state after the call, returned shape). -/
def AShape.optionalM (s : AShape) : AShape × AShape :=
  (s, { s with optionalFlag := true })

/-- `nullable()`: clone, set the flag on the clone. -/
def AShape.nullableM (s : AShape) : AShape × AShape :=
  (s, { s with nullableFlag := true })

/-- `default(value)`: clone, set `_default` on the clone. -/
def AShape.defaultM (s : AShape) (v : JsVal) : AShape × AShape :=
  (s, { s with dflt := some v })

/-- `withPath` of this revision: `_key` is set to `subkey`, the callback
runs, and for a synchronous (non-promise) result `_key` is assigned back
afterwards.  There is no `try`/`finally`, so a callback that throws
leaves `_key` at `subkey`.  The pair is (final `_key`, outcome). -/
def withPath1 (A : Type) (key0 subkey : String) (cb : Except JsError A) :
    String × Except JsError A :=
  match cb with
  | .ok a => (key0, .ok a)
  | .error e => (subkey, .error e)

end TshA

namespace TshN

/-- Operation entries of the first `AbstractShape` revision in
`unnamed/part_009`, whose `_operations` array holds only `transform`
and `refine` entries.  Effective `code`/`message` are resolved as in
`TOp`. -/
inductive POp where
  | transform (code message : String) (fn : JsVal → Except JsError JsVal)
  | refine (code message : String) (fn : JsVal → Except JsError Bool)

/-- `_operate` of that revision: run the entries in order.  A throwing
`transform` function is caught and turned into a `TshShapeError` with
the entry's code/message and the current value; a failing `refine`
raises the entry's error; a throwing `refine` predicate is not caught
and propagates as-is. -/
def operateOps (key : String) : List POp → JsVal → Except JsError JsVal
  | [], v => .ok v
  | .transform code msg fn :: rest, v =>
    match fn v with
    | .ok v2 => operateOps key rest v2
    | .error _ => .error (mkShapeErr code msg v key)
  | .refine code msg fn :: rest, v =>
    match fn v with
    | .error e => .error e
    | .ok true => operateOps key rest v
    | .ok false => .error (mkShapeErr code msg v key)

/-- `NumberShape` (`src/libs/shapes/number-shape.ts`).  `dflt` is the
configured `_default` (a number), `minMeta`/`maxMeta` are the `_min`/
`_max` metadata fields written by the constraint builders. -/
structure NShape where
  key : String := "number"
  dflt : Option Int := none
  optionalFlag : Bool := false
  nullableFlag : Bool := false
  coerceFlag : Bool := false
  minMeta : Option Int := none
  maxMeta : Option Int := none
  ops : List POp := []

/-- The `NOT_NUMBER` error raised by `NumberShape.parse` (default
code/message; the `opts` overrides are not exercised by any caller in
the embedded paths). -/
def NShape.notNumberErr (s : NShape) (v : JsVal) : JsError :=
  mkShapeErr "NOT_NUMBER" "Expected a number" v s.key

/-- `Number(string)` restricted to the integer strings occurring in the
embedded code paths; a non-numeric string yields `NaN`, modelled by
`none`. -/
def jsNumber (st : String) : Option Int :=
  st.toInt?

/-- The `typeof value === "number"` test (`NaN` is a number). -/
def typeofNumber : JsVal → Bool
  | .num _ => true
  | .nan => true
  | _ => false

/-- Tail of `NumberShape.parse` after coercion: the primitive type test
followed by `_operate`. -/
def NShape.finishParse (s : NShape) (v : JsVal) : Except JsError JsVal :=
  if typeofNumber v then operateOps s.key s.ops v
  else .error (s.notNumberErr v)

/-- The coercion block of `NumberShape.parse` (`_coerce` enabled):
`null`/`undefined`/empty string become `0`, booleans become `0`/`1`, a
string goes through `Number(...)` and fails with `NOT_NUMBER` when the
result is `NaN` (the error's `value` is that `NaN`), a number stays
itself, and anything else fails with `NOT_NUMBER`. -/
def NShape.coerceStep (s : NShape) (v : JsVal) : Except JsError JsVal :=
  match v with
  | .null => .ok (.num 0)
  | .undefined => .ok (.num 0)
  | .str "" => .ok (.num 0)
  | .bool b => .ok (.num (if b then 1 else 0))
  | .str st =>
    match jsNumber st with
    | some n => .ok (.num n)
    | none => .error (s.notNumberErr .nan)
  | .num n => .ok (.num n)
  | .nan => .ok .nan
  | _ => .error (s.notNumberErr v)

/-- `NumberShape.parse`: substitute the configured default for
`undefined`, short-circuit `undefined`-and-optional and
`null`-and-nullable, coerce if enabled, then the type test and the
operation chain. -/
def NShape.parse (s : NShape) (v : JsVal) : Except JsError JsVal :=
  let v1 := match v, s.dflt with
    | .undefined, some d => JsVal.num d
    | _, _ => v
  match v1 with
  | .undefined =>
    if s.optionalFlag then .ok .undefined
    else if s.coerceFlag then
      match s.coerceStep .undefined with
      | .error e => .error e
      | .ok v2 => s.finishParse v2
    else s.finishParse .undefined
  | .null =>
    if s.nullableFlag then .ok .null
    else if s.coerceFlag then
      match s.coerceStep .null with
      | .error e => .error e
      | .ok v2 => s.finishParse v2
    else s.finishParse .null
  | w =>
    if s.coerceFlag then
      match s.coerceStep w with
      | .error e => .error e
      | .ok v2 => s.finishParse v2
    else s.finishParse w

/-- The `val >= bound` refinement predicate of `NumberShape.min`
(`NaN` comparisons are false). -/
def jsGeB (v : JsVal) (bound : Int) : Bool :=
  match v with
  | .num n => decide (bound ≤ n)
  | _ => false

/-- `coerce()`: sets `_coerce` on the receiver and returns the receiver
itself.  The pair is (receiver state after the call, returned shape):
both components are the mutated receiver. -/
def NShape.coerceM (s : NShape) : NShape × NShape :=
  let s1 := { s with coerceFlag := true }
  (s1, s1)

/-- `min(value)`: writes `_min` on the receiver, then chains a `refine`
through the base class of this file's import (which clones).  The pair
is (receiver state after the call, returned shape). -/
def NShape.minM (s : NShape) (bound : Int) : NShape × NShape :=
  let s1 := { s with minMeta := some bound }
  (s1, { s1 with ops := s1.ops ++
    [POp.refine "NUMBER_TOO_SMALL"
      ("Number must be at least " ++ toString bound)
      (fun v => .ok (jsGeB v bound))] })

end TshN

namespace TshO

/-- A declared child of an `ObjectShape`: either a shape instance or a
literal value (the non-`BaseShape` branch of the child loop).  The
embedding covers leaf (`NumberShape`) and literal children; the
`instanceof ObjectShape` special cases (nested-object children, lines
45-48 and 125 of `object-shape.ts`) are vacuous for such children and
are not modelled. -/
inductive OChild where
  | numChild (s : TshN.NShape)
  | litChild (v : JsVal)

mutual

/-- `deepEqual` (`functions.ts`) restricted to the embedded values:
structural equality, except that a `NaN` anywhere makes the comparison
false (JavaScript `NaN === NaN` is false).  Object fields are compared
in declaration order; the claims only exercise primitive literals, for
which this coincides with the key-set comparison of the source. -/
def jsDeepEqual : JsVal → JsVal → Bool
  | .undefined, .undefined => true
  | .null, .null => true
  | .bool a, .bool b => a == b
  | .num a, .num b => a == b
  | .str a, .str b => a == b
  | .arr xs, .arr ys => jsDeepEqualList xs ys
  | .obj xs, .obj ys => jsDeepEqualFields xs ys
  | _, _ => false

/-- Element-wise `deepEqual` on arrays. -/
def jsDeepEqualList : List JsVal → List JsVal → Bool
  | [], [] => true
  | x :: xs, y :: ys => jsDeepEqual x y && jsDeepEqualList xs ys
  | _, _ => false

/-- Field-wise `deepEqual` on objects (declaration order). -/
def jsDeepEqualFields : List (String × JsVal) → List (String × JsVal) → Bool
  | [], [] => true
  | (k1, v1) :: xs, (k2, v2) :: ys =>
    k1 == k2 && jsDeepEqual v1 v2 && jsDeepEqualFields xs ys
  | _, _ => false

end

/-- `ObjectShape`.  `children` is `_shape` in declaration order (the
children's `_key` fields are assumed to have been set to their property
paths by `processShapes`, as the constructor does); `dflt` is the
shape's own `_default` object; `minProps`/`maxProps` are
`_minProperties`/`_maxProperties`; `ops` is the `BaseShape` operation
list run by `_operate`. -/
structure OShape where
  key : String := "object"
  children : List (String × OChild) := []
  dflt : Option (List (String × JsVal)) := none
  optionalFlag : Bool := false
  nullableFlag : Bool := false
  partialFlag : Bool := false
  minProps : Option Nat := none
  maxProps : Option Nat := none
  ops : List TshN.POp := []

/-- The default contributed by a child to the defaults snapshot
(`getDefaults`): a shape child contributes its `_default` (reading
`undefined` when unset), a literal child contributes itself. -/
def OChild.defaultVal : OChild → JsVal
  | .numChild n =>
    match n.dflt with
    | some d => .num d
    | none => .undefined
  | .litChild v => v

/-- `getDefaults`: one entry per declared key. -/
def OShape.getDefaults (s : OShape) : List (String × JsVal) :=
  s.children.map (fun p => (p.1, p.2.defaultVal))

/-- The `NOT_OBJECT` error of `ObjectShape.parse`.  It is created after
`this._key = root_path` has run, so the attached shape reports the root
path as its key. -/
def OShape.notObjectErr (rootPath : String) (v : JsVal) : JsError :=
  mkShapeErr "NOT_OBJECT" "Expected object" v rootPath

/-- The parent's `_key` after the child loop: the loop assigns each
child's `current_path` to `this._key` before any skip, so afterwards the
key is the last declared child's path (or still the root path when no
children are declared). -/
def OShape.finalKey (s : OShape) (rootPath : String) : String :=
  match s.children.getLast? with
  | some p => if rootPath = "" then p.1 else rootPath ++ "." ++ p.1
  | none => rootPath

/-- Outcome of validating one declared child inside the loop of
`ObjectShape.parse`: a value pushed to `entries`, a silent `continue`,
or an error pushed to `errors`. -/
inductive ChildOutcome where
  | entry (v : JsVal)
  | skip
  | failure (e : JsError)

/-- The body of the child loop for one declared key, given the parent's
`_partial` flag, the child's path (`current_path`, which the loop also
writes into `this._key`), the plain key, and `merged[key]`.  Shape
children resolve `undefined` against their own default, then `optional`
or parent-partial skips, then the `null`/`nullable` branch, then
`shape.parse`; a caught `TshShapeError` is recorded as-is and any other
exception is recorded as `INVALID_PROPERTY`.  Literal children are
compared with `deepEqual`.  Errors built with `shape: this` capture the
parent's `_key`, which the loop has just set to `current_path`.  The
dead guard at line 174 of `object-shape.ts` (requiring the falsiness of
a value already known to be a plain object) is omitted. -/
def validateChild (partialFlag : Bool) (currentPath plainKey : String)
    (child : OChild) (inputVal : JsVal) : ChildOutcome :=
  match child with
  | .numChild n =>
    let resolved := match inputVal, n.dflt with
      | .undefined, some d => JsVal.num d
      | _, _ => inputVal
    match resolved with
    | .undefined =>
      if n.optionalFlag || partialFlag then .skip
      else .failure (mkShapeErr "MISSING_PROPERTY"
        ("Missing required property \"" ++ currentPath ++ "\"") .undefined currentPath)
    | .null =>
      if n.nullableFlag then .entry .null
      else .failure (mkShapeErr "NOT_NULLABLE"
        ("Property \"" ++ currentPath ++ "\" is not nullable") .null currentPath)
    | w =>
      match n.parse w with
      | .ok parsed => .entry parsed
      | .error e =>
        if e.isShapeErr then .failure e
        else .failure (mkShapeErr "INVALID_PROPERTY"
          ("Invalid property \"" ++ plainKey ++ "\"") inputVal currentPath)
  | .litChild l =>
    if jsDeepEqual inputVal l then .entry inputVal
    else .failure (mkShapeErr "INVALID_LITERAL" "Expected literal value" inputVal currentPath)

/-- The child loop of `ObjectShape.parse`: walk the declared children in
order over the merged input, producing the `entries` and `errors` lists
in declaration order.  In partial mode a key absent from the merged
object is skipped outright (line 121). -/
def OShape.childLoop (s : OShape) (rootPath : String)
    (merged : List (String × JsVal)) :
    List (String × OChild) → List (String × JsVal) × List JsError
  | [] => ([], [])
  | (k, child) :: rest =>
    let currentPath := if rootPath = "" then k else rootPath ++ "." ++ k
    let (entries, errors) := s.childLoop rootPath merged rest
    if s.partialFlag && !(objHas merged k) then (entries, errors)
    else
      match validateChild s.partialFlag currentPath k child (objGet merged k) with
      | .entry v => ((k, v) :: entries, errors)
      | .skip => (entries, errors)
      | .failure e => (entries, e :: errors)

/-- The `TOO_FEW_PROPERTIES` error; `fk` is the parent's `_key` at the
moment the error is built (see `finalKey`). -/
def OShape.tooFewErr (n : Nat) (v : JsVal) (fk : String) : JsError :=
  mkShapeErr "TOO_FEW_PROPERTIES"
    ("Object must have at least " ++ toString n ++ " properties") v fk

/-- The `TOO_MANY_PROPERTIES` error. -/
def OShape.tooManyErr (n : Nat) (v : JsVal) (fk : String) : JsError :=
  mkShapeErr "TOO_MANY_PROPERTIES"
    ("Object must have at most " ++ toString n ++ " properties") v fk

/-- The error resolution at the end of `ObjectShape.parse`: one
collected error is raised directly, several are wrapped in a native
`AggregateError`; with none, `_operate` runs on the result. -/
def OShape.resolveErrors (s : OShape) (fk : String)
    (entries : List (String × JsVal)) (errors : List JsError) :
    Except JsError JsVal :=
  match errors with
  | [] => TshN.operateOps fk s.ops (.obj entries)
  | [e] => .error e
  | es => .error (.aggregate "Multiple validation errors" es)

/-- The tail of `ObjectShape.parse` after the child loop: the
property-count checks run on the keys of the successfully validated
result, and only then the collected child errors are resolved. -/
def OShape.resolveTail (s : OShape) (v : JsVal) (fk : String)
    (entries : List (String × JsVal)) (errors : List JsError) :
    Except JsError JsVal :=
  let keysLen := entries.length
  match s.minProps with
  | some n =>
    if keysLen < n then .error (OShape.tooFewErr n v fk)
    else
      match s.maxProps with
      | some m =>
        if m < keysLen then .error (OShape.tooManyErr m v fk)
        else s.resolveErrors fk entries errors
      | none => s.resolveErrors fk entries errors
  | none =>
    match s.maxProps with
    | some m =>
      if m < keysLen then .error (OShape.tooManyErr m v fk)
      else s.resolveErrors fk entries errors
    | none => s.resolveErrors fk entries errors

/-- `ObjectShape.parse`.  `undefined` resolves against the shape's own
default (returning the defaults snapshot merged under it) or the
`optional` flag; `null` resolves against `nullable`, then the shape
default, then fails; any non-plain-object fails with `NOT_OBJECT`.
Otherwise the input is merged over the defaults snapshot and the
shape's own default, the children are validated, and `resolveTail`
finishes.  The `WeakMap` recursion cache (lines 112-116) is the
identity for the leaf children modelled here and is omitted. -/
def OShape.parse (s : OShape) (v : JsVal) (rootPath : String) : Except JsError JsVal :=
  match v with
  | .undefined =>
    match s.dflt with
    | some od => .ok (.obj (jsSpread s.getDefaults od))
    | none =>
      if s.optionalFlag then .ok .undefined
      else .error (OShape.notObjectErr rootPath .undefined)
  | .null =>
    if s.nullableFlag then .ok .null
    else
      match s.dflt with
      | some od => .ok (.obj (jsSpread s.getDefaults od))
      | none => .error (OShape.notObjectErr rootPath .null)
  | .obj input =>
    let merged := jsSpread (jsSpread s.getDefaults (s.dflt.getD [])) input
    let p := s.childLoop rootPath merged s.children
    s.resolveTail v (s.finalKey rootPath) p.1 p.2
  | w => .error (OShape.notObjectErr rootPath w)

/-- Make one declared child optional, as `partial()` does when it
rebuilds the child map. -/
def OChild.optionalize : OChild → OChild
  | .numChild n => .numChild { n with optionalFlag := true }
  | .litChild v => .litChild v

/-- `partial()`: sets `_partial` on the receiver, then builds a new
`ObjectShape` whose children are all optional and copies the receiver's
metadata onto it.  The pair is (receiver state after the call, returned
shape). -/
def OShape.partialM (s : OShape) : OShape × OShape :=
  let s1 := { s with partialFlag := true }
  (s1, { s1 with children := s1.children.map (fun p => (p.1, p.2.optionalize)) })

/-- `minProperties(min)`: writes `_minProperties` on the receiver, calls
`partial()` for its side effect on the receiver (discarding the shape it
builds), and returns the receiver itself. -/
def OShape.minPropertiesM (s : OShape) (n : Nat) : OShape :=
  (OShape.partialM { s with minProps := some n }).1

/-- `maxProperties(max)`: same pattern as `minProperties`. -/
def OShape.maxPropertiesM (s : OShape) (n : Nat) : OShape :=
  (OShape.partialM { s with maxProps := some n }).1

/-- `nonEmpty()` is `minProperties(1)`. -/
def OShape.nonEmptyM (s : OShape) : OShape :=
  s.minPropertiesM 1

end TshO

namespace TshArr

/-- The message an array error borrows from a failed element result:
`result.error?.message || 'Invalid array item'`.  A thrown non-`Error`
has no `message`, so the fallback applies, as it does for an empty
message string. -/
def arrItemMsg : JsError → String
  | .nonError _ => "Invalid array item"
  | e => if e.messageOf == "" then "Invalid array item" else e.messageOf

/-- The `ArrayShape` revision of `unnamed/part_010`.  The element shape
is represented by its `safeParse` behaviour `elemSafe` (the array code
treats `_shape` opaquely through `safeParse`); `pathKey` is the `path`
variable computed from `_key`/`_type` at the top of the primitive
function.  The `withPath` bracket around each element call only adjusts
the element shape's own key while it runs and is not modelled. -/
structure ArrShape where
  pathKey : String := "array"
  elemSafe : JsVal → Except JsError JsVal
  minLength : Option Nat := none
  maxLength : Option Nat := none
  exactLength : Option Nat := none

/-- The element walk of the `forEach` loop starting at index `i`: one
`new Error` per failed element, in element order, with the indexed path
in the message. -/
def ArrShape.childErrorsFrom (s : ArrShape) (i : Nat) : List JsVal → List JsError
  | [] => []
  | it :: rest =>
    match s.elemSafe it with
    | .error e =>
      .generic (s.pathKey ++ "[" ++ toString i ++ "] - " ++ arrItemMsg e)
        :: s.childErrorsFrom (i + 1) rest
    | .ok _ => s.childErrorsFrom (i + 1) rest

/-- The per-element error list of the whole `forEach` pass. -/
def ArrShape.childErrors (s : ArrShape) (items : List JsVal) : List JsError :=
  s.childErrorsFrom 0 items

/-- The successfully validated elements, in element order. -/
def ArrShape.outputs (s : ArrShape) (items : List JsVal) : List JsVal :=
  items.filterMap (fun it =>
    match s.elemSafe it with
    | .ok v => some v
    | .error _ => none)

/-- The length checks that follow a fully successful element pass:
exact, then minimum, then maximum, each on the raw input length. -/
def ArrShape.lengthChecks (s : ArrShape) (len : Nat) (output : List JsVal) :
    Except JsError JsVal :=
  match s.exactLength with
  | some n =>
    if len ≠ n then .error (.generic
      (s.pathKey ++ " - Must contain exactly " ++ toString n ++ " elements"))
    else
      match s.minLength with
      | some m =>
        if len < m then .error (.generic
          (s.pathKey ++ " - Must contain at least " ++ toString m ++ " elements"))
        else
          match s.maxLength with
          | some mx =>
            if mx < len then .error (.generic
              (s.pathKey ++ " - Must contain at most " ++ toString mx ++ " elements"))
            else .ok (.arr output)
          | none => .ok (.arr output)
      | none =>
        match s.maxLength with
        | some mx =>
          if mx < len then .error (.generic
            (s.pathKey ++ " - Must contain at most " ++ toString mx ++ " elements"))
          else .ok (.arr output)
        | none => .ok (.arr output)
  | none =>
    match s.minLength with
    | some m =>
      if len < m then .error (.generic
        (s.pathKey ++ " - Must contain at least " ++ toString m ++ " elements"))
      else
        match s.maxLength with
        | some mx =>
          if mx < len then .error (.generic
            (s.pathKey ++ " - Must contain at most " ++ toString mx ++ " elements"))
          else .ok (.arr output)
        | none => .ok (.arr output)
    | none =>
      match s.maxLength with
      | some mx =>
        if mx < len then .error (.generic
          (s.pathKey ++ " - Must contain at most " ++ toString mx ++ " elements"))
        else .ok (.arr output)
      | none => .ok (.arr output)

/-- The array primitive function: reject non-arrays, validate every
element collecting all failures, wrap any failures — even a single
one — in a native `AggregateError`, and only on a clean pass run the
length checks. -/
def ArrShape.primitive (s : ArrShape) (v : JsVal) : Except JsError JsVal :=
  match v with
  | .arr items =>
    match s.childErrors items with
    | [] => s.lengthChecks items.length (s.outputs items)
    | es => .error (.aggregate "Invalid array elements" es)
  | _ => .error (.generic (s.pathKey ++ " - Expected an array"))

end TshArr

namespace TshP9

/-- `this._path.join('.')`. -/
def dotJoin (l : List String) : String :=
  String.intercalate "." l

/-- The second `AbstractShape` revision in `unnamed/part_009`
(`_pipelineSync`).  `primitiveSync` is `_primitiveSyncFn` (returning an
error on failure, `none` on success); `path` is `_path`.  The
`_primitiveFn`-returns-a-promise branch is not modelled (the shapes
exercised here supply `primitiveSyncFn` or nothing). -/
structure P9Shape where
  typeName : String := "abstract"
  path : List String := ["abstract"]
  primitiveSync : Option (JsVal → Option JsError) := none
  coerceFn : Option (JsVal → JsVal) := none
  dflt : Option JsVal := none
  optionalFlag : Bool := false
  nullableFlag : Bool := false
  ops : List TOp := []

/-- `_createMissingError` of this revision: message and `path` carry the
joined `_path`; the error's shape is this shape (whose `_key` is its
`_type`). -/
def P9Shape.missing (s : P9Shape) (v : JsVal) : JsError :=
  .shapeErr "REQUIRED" ("Missing required value for \"" ++ dotJoin s.path ++ "\"")
    v s.typeName s.path [] none []

/-- `_enhanceError`: prepend `_path` to the error's path and prefix the
message.  In JavaScript the same two assignments are applied to
non-`TshShapeError` objects as well (adding a `path` property to a
plain `Error` is not modelled; assigning to a thrown primitive would
itself throw in strict mode — no embedded code path reaches that). -/
def P9Shape.enhance (s : P9Shape) : JsError → JsError
  | .shapeErr c m v k p d eo ee =>
    .shapeErr c (dotJoin s.path ++ " - " ++ m) v k (s.path ++ p) d eo ee
  | .aggregate m es => .aggregate (dotJoin s.path ++ " - " ++ m) es
  | .generic m => .generic (dotJoin s.path ++ " - " ++ m)
  | .nonError v => .nonError v

/-- `_createOperationError` (effective code/message resolved as in
`TOp`). -/
def P9Shape.opError (s : P9Shape) (code msg : String) (v : JsVal) : JsError :=
  .shapeErr code msg v s.typeName s.path [] none []

/-- The `SYNC_ASYNC_MISMATCH` error thrown when the synchronous
operation loop reaches an async entry; it carries no value and no
shape. -/
def P9Shape.mismatchErr (s : P9Shape) (opName : String) : JsError :=
  .shapeErr "SYNC_ASYNC_MISMATCH"
    ("Cannot run async operation \x27" ++ opName ++ "\x27 in parse()")
    .undefined "" s.path [] none []

/-- `_validateBasicConstraints`: a missing-value error when the input is
`undefined` on a non-optional shape without a default, and the same
error constructor when the input is `null` on a non-nullable shape. -/
def P9Shape.basicConstraints (s : P9Shape) (v : JsVal) : List JsError :=
  match v with
  | .undefined =>
    if !s.optionalFlag && s.dflt.isNone then [s.missing .undefined] else []
  | .null =>
    if !s.nullableFlag then [s.missing .null] else []
  | _ => []

/-- `_throwCollectedErrors`: one error is rethrown as-is, several are
wrapped in a `MULTIPLE_ERRORS` shape error whose `details` holds the
list. -/
def P9Shape.throwCollected (s : P9Shape) : List JsError → JsError
  | [e] => e
  | es =>
    .shapeErr "MULTIPLE_ERRORS"
      ("Multiple validation errors for \"" ++ dotJoin s.path ++ "\"")
      .undefined s.typeName s.path es none []

/-- `_mergeWithDefault`: no default keeps the value; `undefined` takes
the default; array default and array value concatenate; plain-object
default and value spread-merge; anything else keeps the value (the
JavaScript behaviour of spreading an array into an object, reachable
only with mismatched default/value kinds, is not modelled). -/
def P9Shape.mergeWithDefault (s : P9Shape) (v : JsVal) : JsVal :=
  match s.dflt, v with
  | none, w => w
  | some d, .undefined => d
  | some (.arr da), .arr va => .arr (da ++ va)
  | some (.obj dfs), .obj vfs => .obj (jsSpread dfs vfs)
  | some _, w => w

/-- The operation loop of `_pipelineSync`: `transform` and `refine` run
(their errors pass through `_enhanceError` in the loop's catch), and an
async entry throws the `SYNC_ASYNC_MISMATCH` error, likewise enhanced
by the catch. -/
def P9Shape.opsLoop (s : P9Shape) : List TOp → JsVal → Except JsError JsVal
  | [], v => .ok v
  | op :: rest, v =>
    match op with
    | .transform _ _ fn =>
      match fn v with
      | .ok v2 => s.opsLoop rest v2
      | .error e => .error (s.enhance e)
    | .refine code msg fn =>
      match fn v with
      | .ok true => s.opsLoop rest v
      | .ok false => .error (s.enhance (s.opError code msg v))
      | .error e => .error (s.enhance e)
    | .transformAsync _ _ => .error (s.enhance (s.mismatchErr "transformAsync"))
    | .refineAsync _ _ => .error (s.enhance (s.mismatchErr "refineAsync"))

/-- The tail of `_pipelineSync` after the operation loop: `undefined`
resolves against `optional`/default once more, and every other value is
merged with the default (the explicit `null`-and-nullable return of the
source coincides with the general merge on `null`). -/
def P9Shape.postLoop (s : P9Shape) (v : JsVal) : Except JsError JsVal :=
  match v with
  | .undefined =>
    if s.optionalFlag then .ok (s.mergeWithDefault .undefined)
    else .error (s.missing .undefined)
  | w => .ok (s.mergeWithDefault w)

/-- The primitive check followed by the operation loop and the tail. -/
def P9Shape.primThenOps (s : P9Shape) (w : JsVal) : Except JsError JsVal :=
  match s.primitiveSync with
  | some f =>
    match f w with
    | some e => .error e
    | none =>
      match s.opsLoop s.ops w with
      | .error e => .error e
      | .ok cur => s.postLoop cur
  | none =>
    match s.opsLoop s.ops w with
    | .error e => .error e
    | .ok cur => s.postLoop cur

/-- `_pipelineSync`: basic presence constraints, coercion, the
`undefined`/`null` short-circuits, then `primThenOps`. -/
def P9Shape.pipelineSync (s : P9Shape) (v : JsVal) : Except JsError JsVal :=
  match s.basicConstraints v with
  | e :: rest => .error (s.throwCollected (e :: rest))
  | [] =>
    let fv := match s.coerceFn with
      | some f => f v
      | none => v
    match fv with
    | .undefined =>
      if s.optionalFlag then .ok (s.mergeWithDefault .undefined)
      else .error (s.missing .undefined)
    | .null =>
      if s.nullableFlag then .ok (s.mergeWithDefault .null)
      else s.primThenOps .null
    | w => s.primThenOps w

/-- Result of `safeParse` in this revision
(`\x7b success, data | error \x7d`). -/
inductive P9Res where
  | success (data : JsVal)
  | failure (error : JsError)

/-- `parse`: run the pipeline, enhancing a thrown error once more. -/
def P9Shape.parse (s : P9Shape) (v : JsVal) : Except JsError JsVal :=
  match s.pipelineSync v with
  | .ok d => .ok d
  | .error e => .error (s.enhance e)

/-- `safeParse`: the same with a result value instead of a throw. -/
def P9Shape.safeParse (s : P9Shape) (v : JsVal) : P9Res :=
  match s.pipelineSync v with
  | .ok d => .success d
  | .error e => .failure (s.enhance e)

/-- `withPath` of this revision: `_path` gets `subkey` pushed, the
callback runs inside `try`, and the `finally` block restores the saved
path whether the callback returned or threw.  The pair is (final
`_path`, outcome). -/
def withPath2 (A : Type) (path0 : List String) (subkey : String)
    (cb : Except JsError A) : List String × Except JsError A :=
  let _pushed := path0 ++ [subkey]
  match cb with
  | .ok a => (path0, .ok a)
  | .error e => (path0, .error e)

end TshP9

namespace TshU

/-- The `code` read off a caught error for the union detail list
(reading `code` from a plain `Error` yields `undefined`, modelled as
the empty string). -/
def errCodeStr (e : JsError) : String :=
  (e.codeOf).getD ""

/-- Result of a candidate shape's `safeParse` as the union constructor
consumes it: `success`+`value`, or `error` together with the `errors`
list (the `safeParse` of `abstract-shape.ts` reports
`errors: [error]`). -/
inductive CandRes where
  | okRes (value : JsVal)
  | failRes (error : JsError) (errors : List JsError)

/-- The candidate loop of the `UnionShape` primitive function: try each
candidate in declared order, return the first success, and accumulate
every failing candidate's `errors` list in order. -/
def unionCollect (v : JsVal) : List (JsVal → CandRes) → Except (List JsError) JsVal
  | [] => .error []
  | c :: rest =>
    match c v with
    | .okRes val => .ok val
    | .failRes _ errs =>
      match unionCollect v rest with
      | .ok val => .ok val
      | .error more => .error (errs ++ more)

/-- The `UnionShape` primitive function: first success wins; if every
candidate fails, a single `NO_MATCHING_UNION_MEMBER` shape error is
produced whose `extra.errors` lists one `(code, message, path)` triple
per collected error, in candidate order. -/
def unionPrimitive (cands : List (JsVal → CandRes)) (uKey : String) (v : JsVal) :
    Except JsError JsVal :=
  match unionCollect v cands with
  | .ok val => .ok val
  | .error errs =>
    .error (.shapeErr "NO_MATCHING_UNION_MEMBER"
      "Value did not match any union member" v uKey [] []
      none (errs.map (fun e => (errCodeStr e, e.messageOf, e.keyOf))))

end TshU

/-- Whether a declared child contributes an error in the child loop of
`ObjectShape.parse` (it is not skipped by partial mode and its
validation outcome is a failure). -/
def TshO.OShape.childFails (s : TshO.OShape) (rootPath : String)
    (merged : List (String × JsVal)) (kc : String × TshO.OChild) : Bool :=
  !(s.partialFlag && !(objHas merged kc.1)) &&
  (match TshO.validateChild s.partialFlag
      (if rootPath = "" then kc.1 else rootPath ++ "." ++ kc.1) kc.1 kc.2
      (objGet merged kc.1) with
   | .failure _ => true
   | _ => false)

/-- Whether an element fails the element shape's `safeParse`. -/
def TshArr.ArrShape.elemFails (s : TshArr.ArrShape) (it : JsVal) : Bool :=
  match s.elemSafe it with
  | .error _ => true
  | .ok _ => false

namespace Ex

/-- A number-checking element `safeParse`, as a `NumberShape` child with
key `number` produces it. -/
def numElemSafe : JsVal → Except JsError JsVal := fun v =>
  match v with
  | .num n => .ok (.num n)
  | w => .error (mkShapeErr "NOT_NUMBER" "Expected a number" w "number")

/-- An array of numbers with no length constraints. -/
def arrNum : TshArr.ArrShape :=
  { elemSafe := numElemSafe }

/-- A bare abstract shape (no validator, no flags). -/
def aPlain : TshA.AShape := {}

/-- A non-optional abstract shape with a configured default. -/
def aDefault : TshA.AShape :=
  { dflt := some (.num 7) }

/-- An abstract shape whose validator throws a plain `Error`. -/
def aThrowValidator : TshA.AShape :=
  { validator := some (fun _ => .error (.generic "boom")) }

/-- An abstract shape whose only chain entry is async-only. -/
def aAsync : TshA.AShape :=
  { ops := [TOp.refineAsync "ASYNC_VALIDATION_ERROR" "must pass async"] }

/-- A pipeline-revision shape whose only chain entry is async-only. -/
def p9Async : TshP9.P9Shape :=
  { ops := [TOp.refineAsync "ASYNC_VALIDATION_ERROR" "must pass async"] }

/-- A bare number shape. -/
def nPlain : TshN.NShape := {}

/-- A number shape with coercion enabled. -/
def nCoerce : TshN.NShape :=
  { coerceFlag := true }

/-- A required number child declared under key `a` (`processShapes` has
set its `_key`). -/
def nKeyA : TshN.NShape :=
  { key := "a" }

/-- A required number child declared under key `b`. -/
def nKeyB : TshN.NShape :=
  { key := "b" }

/-- An object shape with two required number children. -/
def oAB : TshO.OShape :=
  { children := [("a", .numChild nKeyA), ("b", .numChild nKeyB)] }

/-- A non-nullable object shape with a configured (empty) default. -/
def oDefaultObj : TshO.OShape :=
  { dflt := some [] }

/-- The error a string candidate reports for a boolean input. -/
def errA : JsError :=
  mkShapeErr "NOT_STRING" "Expected a string" (.bool true) "string"

/-- The error a number candidate reports for a boolean input. -/
def errB : JsError :=
  mkShapeErr "NOT_NUMBER" "Expected a number" (.bool true) "number"

/-- A union candidate that always fails with `errA`. -/
def candFailA : JsVal → TshU.CandRes := fun _ => .failRes errA [errA]

/-- A union candidate that always fails with `errB`. -/
def candFailB : JsVal → TshU.CandRes := fun _ => .failRes errB [errB]

/-- A union candidate that accepts every input unchanged. -/
def candOk : JsVal → TshU.CandRes := fun v => .okRes v

end Ex

/-- Unfolding `ObjectShape.parse` on a plain object input. -/
theorem oparse_obj_unfold (s : TshO.OShape) (input : List (String × JsVal))
    (rootPath : String) :
    s.parse (.obj input) rootPath =
      s.resolveTail (.obj input) (s.finalKey rootPath)
        (s.childLoop rootPath
          (jsSpread (jsSpread s.getDefaults (s.dflt.getD [])) input) s.children).1
        (s.childLoop rootPath
          (jsSpread (jsSpread s.getDefaults (s.dflt.getD [])) input) s.children).2 :=
  rfl

/-- Without count constraints, the tail of `ObjectShape.parse` is the
error resolution alone. -/
theorem resolveTail_noCount (s : TshO.OShape) (v : JsVal) (fk : String)
    (entries : List (String × JsVal)) (errors : List JsError)
    (hmin : s.minProps = none) (hmax : s.maxProps = none) :
    s.resolveTail v fk entries errors = s.resolveErrors fk entries errors := by
  simp [TshO.OShape.resolveTail, hmin, hmax]

/-- The child loop produces exactly one error per failing child. -/
theorem childLoop_errors_length (s : TshO.OShape) (rootPath : String)
    (merged : List (String × JsVal)) :
    ∀ kids : List (String × TshO.OChild),
      ((s.childLoop rootPath merged kids).2).length =
        (kids.filter (s.childFails rootPath merged)).length := by
  intro kids
  induction kids with
  | nil => simp [TshO.OShape.childLoop]
  | cons kc rest ih =>
    obtain ⟨k, child⟩ := kc
    by_cases h : (s.partialFlag && !(objHas merged k)) = true
    · simp only [TshO.OShape.childLoop, TshO.OShape.childFails, h, List.filter,
        Bool.not_true, Bool.false_and, Bool.and_self]
      simpa [h] using ih
    · have h' : (s.partialFlag && !(objHas merged k)) = false := by
        simpa using h
      cases hv : TshO.validateChild s.partialFlag
          (if rootPath = "" then k else rootPath ++ "." ++ k) k child
          (objGet merged k) with
      | entry v => simp [TshO.OShape.childLoop, TshO.OShape.childFails, h', hv, ih]
      | skip => simp [TshO.OShape.childLoop, TshO.OShape.childFails, h', hv, ih]
      | failure e => simp [TshO.OShape.childLoop, TshO.OShape.childFails, h', hv, ih]

/-- An array element pass with at least one failure is wrapped in the
`AggregateError`, before any length check is consulted. -/
theorem arr_primitive_errors (s : TshArr.ArrShape) (items : List JsVal)
    (h : s.childErrors items ≠ []) :
    s.primitive (.arr items) =
      .error (.aggregate "Invalid array elements" (s.childErrors items)) := by
  cases hce : s.childErrors items with
  | nil => exact absurd hce h
  | cons e es => simp [TshArr.ArrShape.primitive, hce]

/-- A clean element pass hands over to the length checks. -/
theorem arr_primitive_clean (s : TshArr.ArrShape) (items : List JsVal)
    (h : s.childErrors items = []) :
    s.primitive (.arr items) = s.lengthChecks items.length (s.outputs items) := by
  simp [TshArr.ArrShape.primitive, h]

/-- The element walk produces exactly one error per failing element. -/
theorem arr_childErrorsFrom_length (s : TshArr.ArrShape) :
    ∀ (items : List JsVal) (i : Nat),
      (s.childErrorsFrom i items).length = (items.filter s.elemFails).length := by
  intro items
  induction items with
  | nil => intro i; simp [TshArr.ArrShape.childErrorsFrom]
  | cons it rest ih =>
    intro i
    cases he : s.elemSafe it with
    | ok v =>
      simp [TshArr.ArrShape.childErrorsFrom, TshArr.ArrShape.elemFails, he, ih]
    | error e =>
      simp [TshArr.ArrShape.childErrorsFrom, TshArr.ArrShape.elemFails, he, ih]

/-- After a clean element pass, the output has one element per input
element. -/
theorem arr_outputs_length (s : TshArr.ArrShape) :
    ∀ (items : List JsVal) (i : Nat), s.childErrorsFrom i items = [] →
      (s.outputs items).length = items.length := by
  intro items
  induction items with
  | nil => intro i _; simp [TshArr.ArrShape.outputs]
  | cons it rest ih =>
    intro i h
    cases he : s.elemSafe it with
    | ok v =>
      rw [TshArr.ArrShape.childErrorsFrom] at h
      rw [he] at h
      simp [TshArr.ArrShape.outputs, he] at ih ⊢
      exact ih (i + 1) h
    | error e =>
      rw [TshArr.ArrShape.childErrorsFrom] at h
      rw [he] at h
      exact absurd h (by simp)

/-- When every union candidate fails (each reporting its single error),
the loop collects the errors in candidate order. -/
theorem unionCollect_allFail (v : JsVal) :
    ∀ (cands : List (JsVal → TshU.CandRes)) (es : List JsError),
      List.Forall₂ (fun c e => c v = TshU.CandRes.failRes e [e]) cands es →
      TshU.unionCollect v cands = .error es := by
  intro cands es h
  induction h with
  | nil => rfl
  | cons hce _ ih =>
    simp [TshU.unionCollect, hce, ih]

/-- A succeeding candidate after any run of failing candidates wins. -/
theorem unionCollect_firstSuccess (v w : JsVal) :
    ∀ (fails : List (JsVal → TshU.CandRes)) (esf : List JsError),
      List.Forall₂ (fun c e => c v = TshU.CandRes.failRes e [e]) fails esf →
      ∀ (c : JsVal → TshU.CandRes) (rest : List (JsVal → TshU.CandRes)),
        c v = .okRes w →
        TshU.unionCollect v (fails ++ c :: rest) = .ok w := by
  intro fails esf h
  induction h with
  | nil =>
    intro c rest hc
    simp [TshU.unionCollect, hc]
  | cons hce _ ih =>
    intro c rest hc
    simp [TshU.unionCollect, hce, ih c rest hc]

/-- C1: for every shape and every input, `safeParse` never throws — it
is a total function into a success/failure result that succeeds exactly
when `_preValidate` does — and on failure it always carries a
`TshShapeError`: a thrown `TshShapeError` is returned unchanged, while
any other thrown value (for example from a user-supplied predicate,
transform or validator) is wrapped into a `TshShapeError` with the
dedicated `UNEXPECTED_ERROR` code, preserving the original exception
under `extra.originalError` — never swallowed silently. -/
theorem c1_safeparse_never_throws :
    ∀ (s : TshA.AShape) (v : JsVal),
      (∀ d, s.preValidate v = .ok d → s.safeParse v = .success d) ∧
      (∀ e0, s.preValidate v = .error e0 →
        ∃ e, s.safeParse v = .failure e ∧ e.isShapeErr = true ∧
          (e0.isShapeErr = true → e = e0) ∧
          (e0.isShapeErr = false → e = s.createUnexpected e0 v)) := by
  intro s v
  constructor
  · intro d hd
    simp [TshA.AShape.safeParse, hd]
  · intro e0 he
    cases e0 with
    | shapeErr c m val k p dt eo ee =>
      refine ⟨.shapeErr c m val k p dt eo ee, ?_, rfl, fun _ => rfl,
        fun hf => by simp [JsError.isShapeErr] at hf⟩
      simp [TshA.AShape.safeParse, he, TshA.AShape.handleError]
    | aggregate m es =>
      refine ⟨s.createUnexpected (.aggregate m es) v, ?_, rfl,
        fun ht => by simp [JsError.isShapeErr] at ht, fun _ => rfl⟩
      simp [TshA.AShape.safeParse, he, TshA.AShape.handleError]
    | generic m =>
      refine ⟨s.createUnexpected (.generic m) v, ?_, rfl,
        fun ht => by simp [JsError.isShapeErr] at ht, fun _ => rfl⟩
      simp [TshA.AShape.safeParse, he, TshA.AShape.handleError]
    | nonError w =>
      refine ⟨s.createUnexpected (.nonError w) v, ?_, rfl,
        fun ht => by simp [JsError.isShapeErr] at ht, fun _ => rfl⟩
      simp [TshA.AShape.safeParse, he, TshA.AShape.handleError]

/-- Witness for C1 at a concrete shape whose validator throws a plain
`Error`: `safeParse` returns a failure carrying the `UNEXPECTED_ERROR`
wrapper with the original exception preserved. -/
theorem c1_safeparse_never_throws_witness :
    Ex.aThrowValidator.safeParse (.num 1) =
      .failure (.shapeErr "UNEXPECTED_ERROR" "boom" (.num 1) "abstract"
        [] [] (some (.generic "boom")) []) := by
  obtain ⟨e, he, _, _, hw⟩ :=
    (c1_safeparse_never_throws Ex.aThrowValidator (.num 1)).2 (.generic "boom") rfl
  rw [hw rfl] at he
  exact he

/-- C3 counterexample: a non-optional shape with a configured default.
The claim says `parse(undefined)` substitutes the default and succeeds;
`_preValidate` instead raises the `REQUIRED` presence error (it reads
the default only inside the `optional` branch). -/
theorem c3_counterexample :
    Ex.aDefault.dflt = some (.num 7) ∧
    Ex.aDefault.optionalFlag = false ∧
    Ex.aDefault.preValidate .undefined = .error (Ex.aDefault.missingError .undefined) ∧
    ¬ ∃ d, Ex.aDefault.preValidate .undefined = .ok d := by
  refine ⟨rfl, rfl, rfl, ?_⟩
  rintro ⟨d, hd⟩
  rw [show Ex.aDefault.preValidate .undefined =
      .error (Ex.aDefault.missingError .undefined) from rfl] at hd
  exact Except.noConfusion hd

/-- C3 amended: `parse(undefined)` resolves presence as follows.  In the
`abstract-shape.ts` revision (no coercion configured) an optional shape
succeeds with the configured default if any, else with `undefined`,
while a non-optional shape fails with the `REQUIRED` presence error
even when a default is configured.  `NumberShape.parse` substitutes a
configured default first and parses it; otherwise an optional shape
succeeds with `undefined`; otherwise, with coercion enabled,
`undefined` coerces to `0` and parsing proceeds with `0`, and without
coercion it fails with the `NOT_NUMBER` type error rather than a
presence error. -/
theorem c3_amended :
    (∀ s : TshA.AShape, s.coerceFn = none →
      s.preValidate .undefined =
        if s.optionalFlag then .ok (s.dflt.getD .undefined)
        else .error (s.missingError .undefined)) ∧
    (∀ (s : TshN.NShape) (d : Int), s.dflt = some d →
      s.parse .undefined = s.parse (.num d)) ∧
    (∀ s : TshN.NShape, s.dflt = none → s.optionalFlag = true →
      s.parse .undefined = .ok .undefined) ∧
    (∀ s : TshN.NShape, s.dflt = none → s.optionalFlag = false →
      s.coerceFlag = true →
      s.parse .undefined = TshN.operateOps s.key s.ops (.num 0)) ∧
    (∀ s : TshN.NShape, s.dflt = none → s.optionalFlag = false →
      s.coerceFlag = false →
      s.parse .undefined = .error (s.notNumberErr .undefined)) := by
  refine ⟨?_, ?_, ?_, ?_, ?_⟩
  · intro s h
    simp [TshA.AShape.preValidate, TshA.AShape.coerceValue, h]
  · intro s d h
    simp [TshN.NShape.parse, h]
  · intro s h ho
    simp [TshN.NShape.parse, h, ho]
  · intro s h ho hc
    simp [TshN.NShape.parse, h, ho, hc, TshN.NShape.coerceStep,
      TshN.NShape.finishParse, TshN.typeofNumber]
  · intro s h ho hc
    simp [TshN.NShape.parse, h, ho, hc, TshN.NShape.finishParse,
      TshN.typeofNumber]

/-- Witness for C3 amended: with coercion, `parse(undefined)` succeeds
with `0`; the non-optional shape with a default still fails. -/
theorem c3_amended_witness :
    Ex.nCoerce.parse .undefined = .ok (.num 0) ∧
    Ex.aDefault.preValidate .undefined = .error (Ex.aDefault.missingError .undefined) := by
  constructor
  · exact c3_amended.2.2.2.1 Ex.nCoerce rfl rfl rfl
  · exact c3_amended.1 Ex.aDefault rfl

/-- C4 counterexample: a bare, non-nullable abstract shape accepts
`null` (`_preValidate` only rejects `null` through a shape validator,
and none is installed), contradicting "when the shape is not nullable,
`parse(null)` fails". -/
theorem c4_counterexample :
    Ex.aPlain.nullableFlag = false ∧
    Ex.aPlain.preValidate .null = .ok .null ∧
    ¬ ∃ e, Ex.aPlain.preValidate .null = .error e := by
  refine ⟨rfl, rfl, ?_⟩
  rintro ⟨e, he⟩
  rw [show Ex.aPlain.preValidate .null = .ok .null from rfl] at he
  exact Except.noConfusion he

/-- C4 amended: `parse(null)` succeeds with `null` whenever the shape is
nullable; when it is not, the outcome is shape-specific: an
`ObjectShape` with a configured default succeeds with the defaults
merge and fails with `NOT_OBJECT` only without one; a `NumberShape`
fails with `NOT_NUMBER` when not coercing and parses `null` as `0` when
coercing; and a bare abstract shape without a validator accepts
`null`. -/
theorem c4_amended :
    (∀ s : TshA.AShape, s.coerceFn = none → s.nullableFlag = true →
      s.preValidate .null = .ok .null) ∧
    (∀ s : TshN.NShape, s.nullableFlag = true → s.parse .null = .ok .null) ∧
    (∀ (s : TshO.OShape) (rootPath : String), s.nullableFlag = true →
      s.parse .null rootPath = .ok .null) ∧
    (∀ (s : TshO.OShape) (rootPath : String) (od : List (String × JsVal)),
      s.nullableFlag = false → s.dflt = some od →
      s.parse .null rootPath = .ok (.obj (jsSpread s.getDefaults od))) ∧
    (∀ (s : TshO.OShape) (rootPath : String), s.nullableFlag = false →
      s.dflt = none →
      s.parse .null rootPath = .error (TshO.OShape.notObjectErr rootPath .null)) ∧
    (∀ s : TshN.NShape, s.nullableFlag = false → s.coerceFlag = false →
      s.parse .null = .error (s.notNumberErr .null)) ∧
    (∀ s : TshN.NShape, s.nullableFlag = false → s.coerceFlag = true →
      s.parse .null = TshN.operateOps s.key s.ops (.num 0)) ∧
    (∀ s : TshA.AShape, s.coerceFn = none → s.validator = none →
      s.nullableFlag = false →
      s.preValidate .null = s.runOps s.ops .null) := by
  refine ⟨?_, ?_, ?_, ?_, ?_, ?_, ?_, ?_⟩
  · intro s h1 h2
    simp [TshA.AShape.preValidate, TshA.AShape.coerceValue, h1, h2]
  · intro s h
    simp [TshN.NShape.parse, h]
  · intro s rootPath h
    simp [TshO.OShape.parse, h]
  · intro s rootPath od h1 h2
    simp [TshO.OShape.parse, h1, h2]
  · intro s rootPath h1 h2
    simp [TshO.OShape.parse, h1, h2]
  · intro s h1 h2
    simp [TshN.NShape.parse, h1, h2, TshN.NShape.finishParse, TshN.typeofNumber]
  · intro s h1 h2
    simp [TshN.NShape.parse, h1, h2, TshN.NShape.coerceStep,
      TshN.NShape.finishParse, TshN.typeofNumber]
  · intro s h1 h2 h3
    simp [TshA.AShape.preValidate, TshA.AShape.coerceValue,
      TshA.AShape.validateThenOps, TshA.AShape.validateSync, h1, h2, h3]

/-- Witness for C4 amended: the defaulted object shape accepts `null`
with its defaults merge, and the bare number shape rejects `null` with
the `NOT_NUMBER` type error. -/
theorem c4_amended_witness :
    Ex.oDefaultObj.parse .null "" = .ok (.obj []) ∧
    Ex.nPlain.parse .null = .error (Ex.nPlain.notNumberErr .null) := by
  constructor
  · exact c4_amended.2.2.2.1 Ex.oDefaultObj "" [] rfl rfl
  · exact c4_amended.2.2.2.2.2.1 Ex.nPlain rfl rfl

/-- C5 counterexample: `NumberShape.coerce()` flips `_coerce` on the
receiver itself and returns that same receiver, so the shape's
observable configuration before and after the call differs —
contradicting "never mutates the shape that another variable still
references". -/
theorem c5_counterexample :
    Ex.nPlain.coerceFlag = false ∧
    (Ex.nPlain.coerceM).1.coerceFlag = true ∧
    (Ex.nPlain.coerceM).2 = (Ex.nPlain.coerceM).1 :=
  ⟨rfl, rfl, rfl⟩

/-- C5 amended: `optional()`, `nullable()` and `default()` on the
abstract shape return fresh clones and leave the receiver unchanged;
but `NumberShape.coerce()` sets `_coerce` on the receiver itself and
returns the receiver, `NumberShape.min()` writes its `_min` metadata on
the receiver before chaining, and `ObjectShape.partial()`,
`minProperties()`, `maxProperties()` and `nonEmpty()` switch the
receiver itself into partial mode (with `minProperties`/`maxProperties`
also writing the count bound and returning the receiver). -/
theorem c5_amended :
    (∀ s : TshA.AShape,
      (s.optionalM).1 = s ∧ (s.nullableM).1 = s ∧ ∀ v, (s.defaultM v).1 = s) ∧
    (∀ s : TshN.NShape,
      (s.coerceM).1.coerceFlag = true ∧ (s.coerceM).2 = (s.coerceM).1) ∧
    (∀ (s : TshN.NShape) (b : Int), (s.minM b).1.minMeta = some b) ∧
    (∀ s : TshO.OShape, (s.partialM).1 = { s with partialFlag := true }) ∧
    (∀ (s : TshO.OShape) (n : Nat),
      s.minPropertiesM n = { s with minProps := some n, partialFlag := true } ∧
      s.maxPropertiesM n = { s with maxProps := some n, partialFlag := true }) ∧
    (∀ s : TshO.OShape,
      s.nonEmptyM = { s with minProps := some 1, partialFlag := true }) := by
  refine ⟨fun s => ⟨rfl, rfl, fun v => rfl⟩, fun s => ⟨rfl, rfl⟩,
    fun s b => rfl, fun s => rfl, fun s n => ⟨rfl, rfl⟩, fun s => rfl⟩

/-- C9: the `withPath` of the `part_009` pipeline revision restores the
saved path whether the callback returns or throws (its body is a
`try`/`finally`); the `withPath` of the `abstract-shape.ts` revision
restores the key only on a normal synchronous return — a callback that
throws synchronously leaves `_key` at the pushed subkey, so the
guaranteed-restore claim fails there. -/
theorem c9_withpath_restore :
    (∀ (A : Type) (path0 : List String) (subkey : String)
        (cb : Except JsError A),
      (TshP9.withPath2 A path0 subkey cb).1 = path0) ∧
    (∀ (A : Type) (key0 subkey : String) (a : A),
      (TshA.withPath1 A key0 subkey (.ok a)).1 = key0) ∧
    (TshA.withPath1 JsVal "orig" "child" (.error (.generic "boom")) =
      ("child", .error (.generic "boom"))) := by
  refine ⟨?_, ?_, rfl⟩
  · intro A path0 subkey cb
    cases cb <;> rfl
  · intro A key0 subkey a
    rfl

/-- For a non-`undefined`, non-`null` input without coercion, the
pipeline of the `part_009` revision goes straight to the primitive
check and the operation loop. -/
theorem p9_pipeline_not_presence (s : TshP9.P9Shape) (v : JsVal)
    (hc : s.coerceFn = none) (hu : v ≠ .undefined) (hn : v ≠ .null) :
    s.pipelineSync v = s.primThenOps v := by
  cases v with
  | undefined => exact absurd rfl hu
  | null => exact absurd rfl hn
  | bool b => simp [TshP9.P9Shape.pipelineSync, TshP9.P9Shape.basicConstraints, hc]
  | num n => simp [TshP9.P9Shape.pipelineSync, TshP9.P9Shape.basicConstraints, hc]
  | nan => simp [TshP9.P9Shape.pipelineSync, TshP9.P9Shape.basicConstraints, hc]
  | str st => simp [TshP9.P9Shape.pipelineSync, TshP9.P9Shape.basicConstraints, hc]
  | arr xs => simp [TshP9.P9Shape.pipelineSync, TshP9.P9Shape.basicConstraints, hc]
  | obj fs => simp [TshP9.P9Shape.pipelineSync, TshP9.P9Shape.basicConstraints, hc]

/-- C6 counterexample: in the `abstract-shape.ts` revision, a shape
whose only chain entry is `refineAsync` parses successfully through the
synchronous entry points — the async entry is silently skipped by the
`default` branch of `_executeOperation`, with no sync/async-mismatch
error. -/
theorem c6_counterexample :
    Ex.aAsync.ops = [TOp.refineAsync "ASYNC_VALIDATION_ERROR" "must pass async"] ∧
    Ex.aAsync.preValidate (.num 1) = .ok (.num 1) ∧
    Ex.aAsync.safeParse (.num 1) = .success (.num 1) ∧
    ¬ ∃ e, Ex.aAsync.safeParse (.num 1) = .failure e := by
  refine ⟨rfl, rfl, rfl, ?_⟩
  rintro ⟨e, he⟩
  rw [show Ex.aAsync.safeParse (.num 1) = .success (.num 1) from rfl] at he
  exact TshA.SRes.noConfusion he

/-- C6 amended: in the `part_009` pipeline revision, the synchronous
entry points raise a dedicated `SYNC_ASYNC_MISMATCH` error as soon as
the chain reaches an async-only entry; in the `abstract-shape.ts`
revision, `_executeOperation` silently skips async entries, so the sync
pipeline behaves as if they were absent. -/
theorem c6_amended :
    (∀ (s : TshP9.P9Shape) (v : JsVal) (code msg : String) (rest : List TOp),
      s.coerceFn = none → s.primitiveSync = none →
      v ≠ .undefined → v ≠ .null →
      s.ops = TOp.refineAsync code msg :: rest →
      s.parse v = .error (s.enhance (s.enhance (s.mismatchErr "refineAsync"))) ∧
      s.safeParse v =
        .failure (s.enhance (s.enhance (s.mismatchErr "refineAsync"))) ∧
      (s.enhance (s.enhance (s.mismatchErr "refineAsync"))).codeOf =
        some "SYNC_ASYNC_MISMATCH") ∧
    (∀ (s : TshP9.P9Shape) (v : JsVal) (code msg : String) (rest : List TOp),
      s.coerceFn = none → s.primitiveSync = none →
      v ≠ .undefined → v ≠ .null →
      s.ops = TOp.transformAsync code msg :: rest →
      s.parse v = .error (s.enhance (s.enhance (s.mismatchErr "transformAsync"))) ∧
      (s.enhance (s.enhance (s.mismatchErr "transformAsync"))).codeOf =
        some "SYNC_ASYNC_MISMATCH") ∧
    (∀ (s : TshA.AShape) (code msg : String) (v : JsVal),
      s.executeOperation (.refineAsync code msg) v = .ok none ∧
      s.executeOperation (.transformAsync code msg) v = .ok none) := by
  refine ⟨?_, ?_, ?_⟩
  · intro s v code msg rest hc hp hu hn hops
    have hpipe := p9_pipeline_not_presence s v hc hu hn
    have hrun : s.primThenOps v =
        .error (s.enhance (s.mismatchErr "refineAsync")) := by
      simp [TshP9.P9Shape.primThenOps, hp, hops, TshP9.P9Shape.opsLoop]
    refine ⟨?_, ?_, rfl⟩
    · simp [TshP9.P9Shape.parse, hpipe, hrun]
    · simp [TshP9.P9Shape.safeParse, hpipe, hrun]
  · intro s v code msg rest hc hp hu hn hops
    have hpipe := p9_pipeline_not_presence s v hc hu hn
    have hrun : s.primThenOps v =
        .error (s.enhance (s.mismatchErr "transformAsync")) := by
      simp [TshP9.P9Shape.primThenOps, hp, hops, TshP9.P9Shape.opsLoop]
    exact ⟨by simp [TshP9.P9Shape.parse, hpipe, hrun], rfl⟩
  · intro s code msg v
    exact ⟨rfl, rfl⟩

/-- Witness for C6 amended: the concrete pipeline-revision shape with a
single `refineAsync` entry fails `safeParse` with the
`SYNC_ASYNC_MISMATCH` code. -/
theorem c6_amended_witness :
    Ex.p9Async.safeParse (.num 1) =
      .failure (Ex.p9Async.enhance
        (Ex.p9Async.enhance (Ex.p9Async.mismatchErr "refineAsync"))) ∧
    (Ex.p9Async.enhance
        (Ex.p9Async.enhance (Ex.p9Async.mismatchErr "refineAsync"))).codeOf =
      some "SYNC_ASYNC_MISMATCH" := by
  have h := c6_amended.1 Ex.p9Async (.num 1) "ASYNC_VALIDATION_ERROR"
    "must pass async" [] rfl rfl
    (fun hh => JsVal.noConfusion hh) (fun hh => JsVal.noConfusion hh) rfl
  exact ⟨h.2.1, h.2.2⟩

/-- C7 counterexample: an object shape with both a count constraint and
an invalid present child.  The child error is collected, but
`ObjectShape.parse` raises `TOO_FEW_PROPERTIES` — the count check runs
before the collected child errors are raised, contradicting "the
collected child errors are raised first". -/
theorem c7_counterexample :
    ((Ex.oAB.minPropertiesM 2).childLoop ""
        (jsSpread (jsSpread (Ex.oAB.minPropertiesM 2).getDefaults
          ((Ex.oAB.minPropertiesM 2).dflt.getD [])) [("a", .str "x")])
        (Ex.oAB.minPropertiesM 2).children).2 =
      [mkShapeErr "NOT_NUMBER" "Expected a number" (.str "x") "a"] ∧
    (Ex.oAB.minPropertiesM 2).parse (.obj [("a", .str "x")]) "" =
      .error (TshO.OShape.tooFewErr 2 (.obj [("a", .str "x")]) "b") ∧
    ¬ ((Ex.oAB.minPropertiesM 2).parse (.obj [("a", .str "x")]) "" =
      .error (mkShapeErr "NOT_NUMBER" "Expected a number" (.str "x") "a")) := by
  refine ⟨rfl, rfl, ?_⟩
  intro h
  have hcode : (some "TOO_FEW_PROPERTIES" : Option String) = some "NOT_NUMBER" :=
    congrArg (fun r => match r with
      | Except.error e => e.codeOf
      | Except.ok _ => none) h
  exact absurd hcode (by decide)

/-- C7 amended: count constraints are evaluated on the successfully
validated result set (the collected entries; for arrays the raw length,
which equals the validated count on a clean pass).  `ArrayShape`
resolves child errors before its length checks, but `ObjectShape`
checks `minProperties`/`maxProperties` before raising the collected
child errors, so a count violation masks them. -/
theorem c7_amended :
    (∀ (s : TshArr.ArrShape) (items : List JsVal),
      s.childErrors items ≠ [] →
      s.primitive (.arr items) =
        .error (.aggregate "Invalid array elements" (s.childErrors items))) ∧
    (∀ (s : TshArr.ArrShape) (items : List JsVal),
      s.childErrors items = [] →
      s.primitive (.arr items) = s.lengthChecks items.length (s.outputs items) ∧
      (s.outputs items).length = items.length) ∧
    (∀ (s : TshO.OShape) (input : List (String × JsVal)) (rootPath : String)
        (entries : List (String × JsVal)) (errors : List JsError) (n : Nat),
      s.childLoop rootPath
          (jsSpread (jsSpread s.getDefaults (s.dflt.getD [])) input) s.children =
        (entries, errors) →
      s.minProps = some n → entries.length < n →
      s.parse (.obj input) rootPath =
        .error (TshO.OShape.tooFewErr n (.obj input) (s.finalKey rootPath))) ∧
    (∀ (s : TshO.OShape) (input : List (String × JsVal)) (rootPath : String)
        (entries : List (String × JsVal)) (errors : List JsError) (m : Nat),
      s.childLoop rootPath
          (jsSpread (jsSpread s.getDefaults (s.dflt.getD [])) input) s.children =
        (entries, errors) →
      s.minProps = none → s.maxProps = some m → m < entries.length →
      s.parse (.obj input) rootPath =
        .error (TshO.OShape.tooManyErr m (.obj input) (s.finalKey rootPath))) := by
  refine ⟨?_, ?_, ?_, ?_⟩
  · intro s items h
    exact arr_primitive_errors s items h
  · intro s items h
    exact ⟨arr_primitive_clean s items h, arr_outputs_length s items 0 h⟩
  · intro s input rootPath entries errors n h hmin hlt
    rw [oparse_obj_unfold, h]
    simp [TshO.OShape.resolveTail, hmin, hlt]
  · intro s input rootPath entries errors m h hmin hmax hlt
    rw [oparse_obj_unfold, h]
    simp [TshO.OShape.resolveTail, hmin, hmax, hlt]

/-- Witness for C7 amended: the concrete count-masking object and the
array that reports its element error before any length concern. -/
theorem c7_amended_witness :
    (Ex.oAB.minPropertiesM 2).parse (.obj [("a", .str "x")]) "" =
      .error (TshO.OShape.tooFewErr 2 (.obj [("a", .str "x")]) "b") ∧
    Ex.arrNum.primitive (.arr [.str "x"]) =
      .error (.aggregate "Invalid array elements"
        [.generic "array[0] - Expected a number"]) := by
  constructor
  · exact c7_amended.2.2.1 (Ex.oAB.minPropertiesM 2) [("a", .str "x")] ""
      [] [mkShapeErr "NOT_NUMBER" "Expected a number" (.str "x") "a"] 2
      rfl rfl (by decide)
  · have hne : Ex.arrNum.childErrors [.str "x"] ≠ [] := by
      intro hh
      have hh2 : ([JsError.generic "array[0] - Expected a number"] : List JsError)
          = [] := hh
      exact List.noConfusion hh2
    exact c7_amended.1 Ex.arrNum [.str "x"] hne

/-- C2 counterexample: an array with exactly one invalid element.  The
claim says a single child error is raised directly (and an aggregate
would be a `ShapeError` with `details`); the code instead wraps even
the single error in a native `AggregateError`, which is not a
`ShapeError` at all. -/
theorem c2_counterexample :
    Ex.arrNum.primitive (.arr [.str "q"]) =
      .error (.aggregate "Invalid array elements"
        [.generic "array[0] - Expected a number"]) ∧
    (∀ e, Ex.arrNum.primitive (.arr [.str "q"]) = .error e →
      e.isShapeErr = false) := by
  refine ⟨rfl, ?_⟩
  intro e he
  rw [show Ex.arrNum.primitive (.arr [.str "q"]) =
      .error (.aggregate "Invalid array elements"
        [.generic "array[0] - Expected a number"]) from rfl] at he
  injection he with h2
  rw [← h2]
  rfl

/-- C2 amended: composite validation checks every child even after one
fails, collecting exactly one error per invalid child (no early
short-circuit).  `ObjectShape` raises a single collected error directly
and wraps two or more in a native `AggregateError` (message `Multiple
validation errors`) holding the full list; `ArrayShape` wraps any
non-zero number of child failures — including exactly one — in a native
`AggregateError` (message `Invalid array elements`), so the aggregate
is an `AggregateError` rather than a `ShapeError` with `details`. -/
theorem c2_amended :
    (∀ (s : TshO.OShape) (input : List (String × JsVal)) (rootPath : String)
        (entries : List (String × JsVal)) (errors : List JsError),
      s.minProps = none → s.maxProps = none →
      s.childLoop rootPath
          (jsSpread (jsSpread s.getDefaults (s.dflt.getD [])) input) s.children =
        (entries, errors) →
      errors.length =
        (s.children.filter (s.childFails rootPath
          (jsSpread (jsSpread s.getDefaults (s.dflt.getD [])) input))).length ∧
      (∀ e, errors = [e] → s.parse (.obj input) rootPath = .error e) ∧
      (∀ e1 e2 es, errors = e1 :: e2 :: es →
        s.parse (.obj input) rootPath =
          .error (.aggregate "Multiple validation errors" errors))) ∧
    (∀ (s : TshArr.ArrShape) (items : List JsVal),
      (s.childErrors items).length = (items.filter s.elemFails).length ∧
      (s.childErrors items ≠ [] →
        s.primitive (.arr items) =
          .error (.aggregate "Invalid array elements" (s.childErrors items)))) := by
  constructor
  · intro s input rootPath entries errors hmin hmax h
    refine ⟨?_, ?_, ?_⟩
    · have hlen := childLoop_errors_length s rootPath
        (jsSpread (jsSpread s.getDefaults (s.dflt.getD [])) input) s.children
      rw [h] at hlen
      exact hlen
    · intro e he
      rw [oparse_obj_unfold, h]
      rw [resolveTail_noCount _ _ _ _ _ hmin hmax]
      rw [he]
      rfl
    · intro e1 e2 es he
      rw [oparse_obj_unfold, h]
      rw [resolveTail_noCount _ _ _ _ _ hmin hmax]
      rw [he]
      rfl
  · intro s items
    exact ⟨arr_childErrorsFrom_length s items 0,
      fun h => arr_primitive_errors s items h⟩

/-- Witness for C2 amended: the two-child object with both children
invalid reports the native aggregate holding exactly the two child
errors, in declaration order. -/
theorem c2_amended_witness :
    Ex.oAB.parse (.obj [("a", .str "x"), ("b", .str "y")]) "" =
      .error (.aggregate "Multiple validation errors"
        [mkShapeErr "NOT_NUMBER" "Expected a number" (.str "x") "a",
         mkShapeErr "NOT_NUMBER" "Expected a number" (.str "y") "b"]) := by
  have h := (c2_amended.1 Ex.oAB [("a", .str "x"), ("b", .str "y")] "" []
      [mkShapeErr "NOT_NUMBER" "Expected a number" (.str "x") "a",
       mkShapeErr "NOT_NUMBER" "Expected a number" (.str "y") "b"]
      rfl rfl rfl).2.2
  exact h _ _ [] rfl

/-- C8: `UnionShape` tries its candidates strictly in declared order.
A candidate that succeeds after any run of failing candidates yields
its result; if every candidate fails (each contributing its single
reported error), the primitive produces one `NO_MATCHING_UNION_MEMBER`
shape error whose nested per-candidate error list (`extra.errors`)
holds exactly one `(code, message, path)` entry per candidate, in
candidate order — for `[A, B]` the order is A's error then B's, never
reversed. -/
theorem c8_union_order :
    (∀ (cands : List (JsVal → TshU.CandRes)) (uKey : String) (v : JsVal)
        (es : List JsError),
      List.Forall₂ (fun c e => c v = TshU.CandRes.failRes e [e]) cands es →
      TshU.unionPrimitive cands uKey v =
        .error (.shapeErr "NO_MATCHING_UNION_MEMBER"
          "Value did not match any union member" v uKey [] [] none
          (es.map (fun e => (TshU.errCodeStr e, e.messageOf, e.keyOf))))) ∧
    (∀ (fails : List (JsVal → TshU.CandRes)) (esf : List JsError)
        (c : JsVal → TshU.CandRes) (rest : List (JsVal → TshU.CandRes))
        (uKey : String) (v w : JsVal),
      List.Forall₂ (fun cf e => cf v = TshU.CandRes.failRes e [e]) fails esf →
      c v = .okRes w →
      TshU.unionPrimitive (fails ++ c :: rest) uKey v = .ok w) := by
  constructor
  · intro cands uKey v es h
    simp [TshU.unionPrimitive, unionCollect_allFail v cands es h]
  · intro fails esf c rest uKey v w h hc
    simp [TshU.unionPrimitive,
      unionCollect_firstSuccess v w fails esf h c rest hc]

/-- Witness for C8: a two-candidate union where both reject a boolean
reports the details in candidate order, and a failing candidate
followed by an accepting one returns the success. -/
theorem c8_union_order_witness :
    TshU.unionPrimitive [Ex.candFailA, Ex.candFailB] "union" (.bool true) =
      .error (.shapeErr "NO_MATCHING_UNION_MEMBER"
        "Value did not match any union member" (.bool true) "union" [] [] none
        [("NOT_STRING", "Expected a string", "string"),
         ("NOT_NUMBER", "Expected a number", "number")]) ∧
    TshU.unionPrimitive [Ex.candFailA, Ex.candOk] "union" (.bool true) =
      .ok (.bool true) := by
  constructor
  · exact c8_union_order.1 [Ex.candFailA, Ex.candFailB] "union" (.bool true)
      [Ex.errA, Ex.errB]
      (List.Forall₂.cons rfl (List.Forall₂.cons rfl List.Forall₂.nil))
  · exact c8_union_order.2 [Ex.candFailA] [Ex.errA] Ex.candOk [] "union"
      (.bool true) (.bool true) (List.Forall₂.cons rfl List.Forall₂.nil) rfl

/-- C10: `minProperties`, `maxProperties` and `nonEmpty` on an
`ObjectShape` mutate the receiver itself (the returned shape is the
receiver with the count bound written and `_partial` switched on, its
child map untouched; the optionalized shape built by the inner
`partial()` call is discarded), and partial mode makes an absent
declared child with no default a silent skip — so after
`minProperties(1)`, parsing an object that omits a required child no
longer reports `MISSING_PROPERTY`. -/
theorem c10_minprops_mutates :
    (∀ (s : TshO.OShape) (n : Nat),
      s.minPropertiesM n = { s with minProps := some n, partialFlag := true } ∧
      s.maxPropertiesM n = { s with maxProps := some n, partialFlag := true } ∧
      s.nonEmptyM = { s with minProps := some 1, partialFlag := true }) ∧
    (∀ (cp k : String) (nsh : TshN.NShape),
      nsh.dflt = none → nsh.optionalFlag = false →
      TshO.validateChild true cp k (.numChild nsh) .undefined = .skip) ∧
    (Ex.oAB.parse (.obj [("a", .num 5)]) "" =
      .error (mkShapeErr "MISSING_PROPERTY"
        "Missing required property \"b\"" .undefined "b")) ∧
    ((Ex.oAB.minPropertiesM 1).parse (.obj [("a", .num 5)]) "" =
      .ok (.obj [("a", .num 5)])) := by
  refine ⟨fun s n => ⟨rfl, rfl, rfl⟩, ?_, rfl, rfl⟩
  intro cp k nsh h1 h2
  simp [TshO.validateChild, h1, h2]

/-- Witness for C10: the partial-skip fact applied at the concrete `b`
child, together with the concrete post-`minProperties` success. -/
theorem c10_minprops_partial_witness :
    TshO.validateChild true "b" "b" (.numChild Ex.nKeyB) .undefined =
      TshO.ChildOutcome.skip ∧
    (Ex.oAB.minPropertiesM 1).parse (.obj [("a", .num 5)]) "" =
      .ok (.obj [("a", .num 5)]) :=
  ⟨c10_minprops_mutates.2.1 "b" "b" Ex.nKeyB rfl rfl,
   c10_minprops_mutates.2.2.2⟩
